import Mathlib

/-!
Shallow embedding of the MOSDAC portal core: the knowledge-graph catalog,
search and node-detail logic of `src/components/ContentManager.tsx`
(component `KnowledgeGraph`) and the rule-based chat classifier
`simulateAIResponse` of the chat component.  JavaScript strings become
Lean `String`, `Array.prototype.filter`/`find` become `List.filter` /
`List.find?`, and the implicit clock (`Date.now()`, `new Date()`) becomes
an explicit `now : Nat` argument.
-/

namespace Mosdac

/-- Model of the JavaScript `String.prototype.toLowerCase` (the source data is
ASCII): lowercase every character. -/
def jsToLower (s : String) : String := ⟨s.data.map Char.toLower⟩

/-- Helper for `jsIncludes` on character lists: does `pat` occur as a
contiguous sublist?  The empty pattern occurs in every list. -/
def listIncludes (pat : List Char) : List Char → Bool
  | [] => pat.isEmpty
  | c :: cs => pat.isPrefixOf (c :: cs) || listIncludes pat cs

/-- Model of the JavaScript `String.prototype.includes`: contiguous substring
containment. -/
def jsIncludes (s pat : String) : Bool := listIncludes pat.data s.data

/-- A scalar metadata value as it appears in the catalog literals of
`ContentManager.tsx` (strings, numbers, or a list of strings). -/
inductive MetaVal where
  | str (v : String)
  | num (v : Nat)
  | strs (v : List String)
deriving DecidableEq

/-- The `Node` interface of `ContentManager.tsx` (lines 361-369).  The TS
`type` is a union of string literals, kept here as `String`; `metadata` is the
object literal as a key/value list. -/
structure Node where
  id : String
  label : String
  type : String
  x : Nat
  y : Nat
  connections : List String
  metadata : List (String × MetaVal)
deriving DecidableEq

/-- The `Edge` interface of `ContentManager.tsx` (lines 371-376).  `from` is a
Lean keyword, so the field is spelled `from'`. -/
structure Edge where
  from' : String
  to' : String
  label : String
  type : String
deriving DecidableEq

/-- The hard-coded node catalog of `KnowledgeGraph` (`ContentManager.tsx`
lines 383-474), transcribed field by field. -/
def nodes : List Node := [
  { id := "insat3d", label := "INSAT-3D", type := "mission", x := 200, y := 150,
    connections := ["imager_data", "sounder_data", "meteorology"],
    metadata := [("launch", .str "2013"), ("status", .str "Active"),
                 ("orbit", .str "Geostationary")] },
  { id := "scatsat1", label := "SCATSAT-1", type := "mission", x := 400, y := 100,
    connections := ["scatterometer_data", "ocean_winds", "weather"],
    metadata := [("launch", .str "2016"), ("status", .str "Active"),
                 ("orbit", .str "Polar")] },
  { id := "oceansat2", label := "Oceansat-2", type := "mission", x := 600, y := 180,
    connections := ["ocm_data", "ocean_color", "coastal_monitoring"],
    metadata := [("launch", .str "2009"), ("status", .str "Active"),
                 ("orbit", .str "Sun-synchronous")] },
  { id := "imager_data", label := "Imager Data", type := "product", x := 150, y := 300,
    connections := ["meteorology", "weather_forecasting"],
    metadata := [("resolution", .str "1km-4km"), ("bands", .str "6 channels"),
                 ("format", .str "HDF5")] },
  { id := "scatterometer_data", label := "Scatterometer Data", type := "product",
    x := 400, y := 280,
    connections := ["ocean_winds", "weather"],
    metadata := [("resolution", .str "25km"), ("swath", .str "1400km"),
                 ("format", .str "NetCDF")] },
  { id := "ocm_data", label := "OCM Data", type := "product", x := 650, y := 320,
    connections := ["ocean_color", "coastal_monitoring"],
    metadata := [("resolution", .str "360m"), ("bands", .str "8 channels"),
                 ("format", .str "HDF4")] },
  { id := "user_manual", label := "User Manual", type := "document", x := 100, y := 450,
    connections := ["imager_data", "data_processing"],
    metadata := [("pages", .num 156), ("version", .str "2.1"),
                 ("format", .str "PDF")] },
  { id := "api_doc", label := "API Documentation", type := "document", x := 300, y := 480,
    connections := ["data_access", "developers"],
    metadata := [("endpoints", .num 12), ("version", .str "1.3"),
                 ("format", .str "HTML")] },
  { id := "faq", label := "FAQ Database", type := "document", x := 500, y := 450,
    connections := ["user_support", "common_issues"],
    metadata := [("questions", .num 247), ("categories", .num 8),
                 ("updated", .str "2024-01-15")] },
  { id := "indian_ocean", label := "Indian Ocean", type := "location", x := 750, y := 400,
    connections := ["oceansat2", "scatsat1"],
    metadata := [("area", .str "70.6M km²"), ("coverage", .str "Full"),
                 ("sensors", .strs ["OCM", "Scatterometer"])] }
]

/-- The hard-coded edge catalog of `KnowledgeGraph` (`ContentManager.tsx`
lines 476-484). -/
def edges : List Edge := [
  { from' := "insat3d", to' := "imager_data", label := "generates", type := "provides" },
  { from' := "scatsat1", to' := "scatterometer_data", label := "produces", type := "provides" },
  { from' := "oceansat2", to' := "ocm_data", label := "captures", type := "provides" },
  { from' := "imager_data", to' := "user_manual", label := "documented in", type := "contains" },
  { from' := "scatterometer_data", to' := "api_doc", label := "accessible via", type := "accesses" },
  { from' := "ocm_data", to' := "indian_ocean", label := "covers", type := "related" },
  { from' := "scatsat1", to' := "indian_ocean", label := "monitors", type := "related" }
]

/-- The search filter installed by the `useEffect` of `KnowledgeGraph`
(`ContentManager.tsx` lines 486-492): keep the nodes whose lowercased label
or lowercased type contains the lowercased term. -/
def searchNodes (term : String) : List Node :=
  nodes.filter (fun node =>
    jsIncludes (jsToLower node.label) (jsToLower term) ||
    jsIncludes (jsToLower node.type) (jsToLower term))

/-- Line 563 of `ContentManager.tsx`: the rendered node list is
`searchTerm ? filteredNodes : nodes` — the raw catalog when the term is the
empty string (falsy), the filtered list otherwise. -/
def displayedNodes (term : String) : List Node :=
  if term.isEmpty then nodes else searchNodes term

/-- `getNodeColor` of `KnowledgeGraph` (`ContentManager.tsx` lines 506-516):
the CSS class pair for a node type, with a gray default branch. -/
def getNodeColor (t : String) : String :=
  if t == "mission" then "bg-blue-500 border-blue-400"
  else if t == "product" then "bg-green-500 border-green-400"
  else if t == "document" then "bg-orange-500 border-orange-400"
  else if t == "location" then "bg-purple-500 border-purple-400"
  else if t == "user" then "bg-pink-500 border-pink-400"
  else if t == "process" then "bg-yellow-500 border-yellow-400"
  else "bg-gray-500 border-gray-400"

/-- One entry of the Connections panel (`ContentManager.tsx` lines 645-655):
for a connection id of the selected node, the dot colour class
(`getNodeColor(...).split(' ')[0]`, or `bg-gray-500` when the id resolves to
no node) and the shown text (the node label, or the raw id). -/
def renderConnection (connectionId : String) : String × String :=
  match nodes.find? (fun n => n.id == connectionId) with
  | some connectedNode =>
      (((getNodeColor connectedNode.type).splitOn " ").headD "", connectedNode.label)
  | none => ("bg-gray-500", connectionId)

/-- The Relationships filter of the detail panel (`ContentManager.tsx` lines
662-663) over an arbitrary edge list: all edges whose `from` or `to` equals
the id, in list order. -/
def edgesOfIn (es : List Edge) (id : String) : List Edge :=
  es.filter (fun edge => edge.from' == id || edge.to' == id)

/-- `edgesOfIn` applied to the shipped edge catalog, as the detail panel does
with `selectedNode.id`. -/
def edgesOf (id : String) : List Edge := edgesOfIn edges id

/-- An SVG line as produced by `renderEdges` (coordinates and the dash
pattern). -/
structure EdgeLine where
  x1 : Nat
  y1 : Nat
  x2 : Nat
  y2 : Nat
  dash : String
deriving DecidableEq

/-- `renderEdges` of `KnowledgeGraph` (`ContentManager.tsx` lines 518-537)
over an arbitrary catalog: an edge whose `from` or `to` id resolves to no
node yields nothing (the code returns `null`); otherwise a line between the
two node positions, dashed for `related` edges. -/
def renderEdgesIn (ns : List Node) (es : List Edge) : List EdgeLine :=
  es.filterMap (fun edge =>
    match ns.find? (fun n => n.id == edge.from'), ns.find? (fun n => n.id == edge.to') with
    | some fromNode, some toNode =>
        some { x1 := fromNode.x + 40, y1 := fromNode.y + 40,
               x2 := toNode.x + 40, y2 := toNode.y + 40,
               dash := if edge.type == "related" then "5,5" else "none" }
    | _, _ => none)

/-- `renderEdges` over the shipped catalog. -/
def renderEdges : List EdgeLine := renderEdgesIn nodes edges

/-- De-duplication helper keeping first occurrences: `seen` accumulates the
elements already emitted. -/
def dedupFirstAux (seen : List String) : List String → List String
  | [] => []
  | x :: xs =>
      if seen.contains x then dedupFirstAux seen xs
      else x :: dedupFirstAux (x :: seen) xs

/-- De-duplicate a list of strings keeping the first occurrence of each. -/
def dedupFirst (l : List String) : List String := dedupFirstAux [] l

/-- Written from the spec (§3, §4.1), for comparison with the authored
`connections` field: the ids joined to `id` by an edge incident to it, in
edge-catalog order, duplicates removed. -/
def specDerivedConnections (es : List Edge) (id : String) : List String :=
  dedupFirst (es.filterMap (fun e =>
    if e.from' == id then some e.to'
    else if e.to' == id then some e.from' else none))

/-- Written from the spec (§4.4), for comparison with the classifier's entity
lists: the catalog labels occurring case-insensitively in the text,
de-duplicated, in catalog order. -/
def specExtract (text : String) : List String :=
  dedupFirst ((nodes.filter (fun n =>
    jsIncludes (jsToLower text) (jsToLower n.label))).map Node.label)

/-- The union of the `metadata` object literals attached by
`simulateAIResponse`; each branch sets a different subset of fields, absent
fields are `none`.  The JS number `0.92` is modelled as the rational
`92/100`. -/
structure ChatMetadata where
  entities : Option (List String)
  intent : Option String
  confidence : Option ℚ
  procedure : Option String
  steps : Option Nat
  spatialQuery : Option Bool
  availableSensors : Option (List String)
  generalQuery : Option Bool
  searchAreas : Option (List String)
deriving DecidableEq

/-- The `Message` interface of the chat component (lines 4-11): `Date.now()`
ids and `new Date()` timestamps are both the clock value `now`. -/
structure ChatMessage where
  id : String
  content : String
  sender : String
  timestamp : Nat
  type : Option String
  metadata : Option ChatMetadata
deriving DecidableEq

/-- Response body of the satellite/data branch (chat component lines 41-47). -/
def productInquiryContent : String :=
  "Based on our knowledge graph analysis, I found several satellite data products relevant to your query. MOSDAC hosts data from multiple missions including INSAT-3D, SCATSAT-1, and Oceansat-2. Here are the key products:\n\n• **INSAT-3D Imager Data**: High-resolution meteorological imagery\n• **SCATSAT-1 Scatterometer**: Ocean wind vector data\n• **Oceansat-2 OCM**: Ocean color and coastal zone monitoring\n\nWould you like specific information about any of these products, including download procedures or technical specifications?"

/-- Response body of the download/access branch (chat component lines 60-68). -/
def downloadContent : String :=
  "To download data from MOSDAC, you\x27ll need to follow these steps:\n\n1. **Registration**: Create an account on the MOSDAC portal\n2. **Data Search**: Use the catalog to find your required datasets\n3. **Request Submission**: Submit a data request with your requirements\n4. **Approval Process**: Wait for approval (usually 24-48 hours)\n5. **Download**: Access your approved data through the user dashboard\n\nFor bulk downloads or automated access, you can use our API services. Would you like me to provide the API documentation or help with a specific data request?"

/-- Response body of the location/area/region branch (chat component lines
80-87). -/
def geospatialContent : String :=
  "I can help you find satellite data for specific geographical locations. Our geospatial intelligence system can identify relevant datasets based on:\n\n🗺️ **Spatial Coverage**: Data available for your area of interest\n📊 **Temporal Range**: Time series data availability\n🛰️ **Sensor Types**: Optical, radar, and microwave sensors\n🎯 **Resolution**: From 1km to 25m spatial resolution\n\nPlease provide your area of interest (coordinates, place name, or region) and I\x27ll identify the most suitable datasets and their availability."

/-- Response body of the fallback branch (chat component lines 99-107); the
raw query is interpolated into the text. -/
def fallbackContent (userQuery : String) : String :=
  "I understand you\x27re looking for information about \"" ++ userQuery ++
  "\". Let me search through our comprehensive knowledge base covering:\n\n• **Product Documentation**: Technical specifications and user guides\n• **FAQ Database**: Common questions and solutions\n• **Mission Information**: Satellite mission details and objectives\n• **Data Processing**: Algorithms and processing levels\n• **Support Materials**: Tutorials and training resources\n\nCould you please provide more specific details about what you\x27re looking for? This will help me give you more targeted information."

/-- `simulateAIResponse` of the chat component (lines 34-116): lowercase the
query, then walk the keyword rules in source order — satellite/data, then
download/access, then location/area/region, then the fallback.  `Date.now()`
and `new Date()` are the explicit argument `now`. -/
def simulateAIResponse (userQuery : String) (now : Nat) : ChatMessage :=
  let query := jsToLower userQuery
  if jsIncludes query "satellite" || jsIncludes query "data" then
    { id := toString now, content := productInquiryContent, sender := "bot",
      timestamp := now, type := some "query_analysis",
      metadata := some
        { entities := some ["INSAT-3D", "SCATSAT-1", "Oceansat-2"],
          intent := some "product_inquiry", confidence := some (92 / 100),
          procedure := none, steps := none, spatialQuery := none,
          availableSensors := none, generalQuery := none, searchAreas := none } }
  else if jsIncludes query "download" || jsIncludes query "access" then
    { id := toString now, content := downloadContent, sender := "bot",
      timestamp := now, type := some "document",
      metadata := some
        { entities := none, intent := none, confidence := none,
          procedure := some "data_download", steps := some 5,
          spatialQuery := none, availableSensors := none,
          generalQuery := none, searchAreas := none } }
  else if jsIncludes query "location" || jsIncludes query "area" ||
      jsIncludes query "region" then
    { id := toString now, content := geospatialContent, sender := "bot",
      timestamp := now, type := some "geospatial",
      metadata := some
        { entities := none, intent := none, confidence := none,
          procedure := none, steps := none, spatialQuery := some true,
          availableSensors := some ["OCM", "Scatterometer", "Imager"],
          generalQuery := none, searchAreas := none } }
  else
    { id := toString now, content := fallbackContent userQuery, sender := "bot",
      timestamp := now, type := none,
      metadata := some
        { entities := none, intent := none, confidence := none,
          procedure := none, steps := none, spatialQuery := none,
          availableSensors := none, generalQuery := some true,
          searchAreas := some ["documentation", "faq", "missions", "support"] } }

/-- The `intent` carried by a chat message's metadata, if any. -/
def intentOf (m : ChatMessage) : Option String :=
  m.metadata.bind ChatMetadata.intent

/-- The `confidence` carried by a chat message's metadata, if any. -/
def confidenceOf (m : ChatMessage) : Option ℚ :=
  m.metadata.bind ChatMetadata.confidence

/-- The `entities` list carried by a chat message's metadata, if any. -/
def entitiesOf (m : ChatMessage) : Option (List String) :=
  m.metadata.bind ChatMetadata.entities

/-- The `procedure` tag carried by a chat message's metadata, if any. -/
def procedureOf (m : ChatMessage) : Option String :=
  m.metadata.bind ChatMetadata.procedure

/-- A one-node catalog with an edge whose `to` endpoint resolves to no node,
exercising the dangling-edge paths of `renderEdges` and the incident-edge
filter. -/
def danglingNodes : List Node :=
  [{ id := "n1", label := "N1", type := "mission", x := 0, y := 0,
     connections := [], metadata := [] }]

/-- The edge list paired with `danglingNodes`: its single edge points to the
unknown id `ghost`. -/
def danglingEdges : List Edge :=
  [{ from' := "n1", to' := "ghost", label := "links", type := "related" }]

/-- C1: the claim says every node's `connections` equals the edge-derived
neighbour set.  In the code `connections` is hand-authored input: for node
`insat3d` it is `["imager_data", "sounder_data", "meteorology"]` while the
edge catalog joins `insat3d` only to `imager_data`; the authored id
`sounder_data` is not even a node of the catalog.  This evaluates the code at
the failing input. -/
theorem c1_connections_drift :
    (nodes.find? (fun n => n.id == "insat3d")).map Node.connections
      = some ["imager_data", "sounder_data", "meteorology"]
    ∧ specDerivedConnections edges "insat3d" = ["imager_data"]
    ∧ (nodes.find? (fun n => n.id == "insat3d")).map Node.connections
        ≠ some (specDerivedConnections edges "insat3d")
    ∧ nodes.find? (fun n => n.id == "sounder_data") = none := by
  refine ⟨?_, ?_, ?_, ?_⟩ <;> decide

/-- C2 counterexample: the input `"download satellite"` contains both a
download keyword and a satellite keyword, yet the classifier resolves it to
`product_inquiry` (the satellite/data rule comes first in the source), not to
the download/access response (`data_download`). -/
theorem c2_counterexample :
    intentOf (simulateAIResponse "download satellite" 0) = some "product_inquiry"
    ∧ intentOf (simulateAIResponse "download satellite" 0) ≠ some "data_download"
    ∧ procedureOf (simulateAIResponse "download satellite" 0) = none := by
  refine ⟨?_, ?_, ?_⟩ <;> decide

/-- C2 amended: an input containing both a download/access keyword and a
satellite/data keyword resolves to the earlier rule in the fixed source
order, which is the satellite/data rule — intent `product_inquiry` with the
`query_analysis` response — and never to the generic fallback. -/
theorem c2_rule_precedence (text : String) (now : Nat)
    (hdl : jsIncludes (jsToLower text) "download" = true
         ∨ jsIncludes (jsToLower text) "access" = true)
    (hsat : jsIncludes (jsToLower text) "satellite" = true
          ∨ jsIncludes (jsToLower text) "data" = true) :
    intentOf (simulateAIResponse text now) = some "product_inquiry"
    ∧ (simulateAIResponse text now).type = some "query_analysis" := by
  rcases hsat with h | h <;> simp [simulateAIResponse, intentOf, h]

/-- Witness for C2 amended at the concrete input `"download satellite"`. -/
theorem c2_rule_precedence_witness :
    intentOf (simulateAIResponse "download satellite" 7) = some "product_inquiry"
    ∧ (simulateAIResponse "download satellite" 7).type = some "query_analysis" :=
  c2_rule_precedence "download satellite" 7 (Or.inl (by decide)) (Or.inl (by decide))

/-- C3 counterexample: on a catalog with an unresolved edge endpoint no
load-time `ValidationError` exists — the catalog is served as-is: the edge
renderer silently drops the dangling edge, while the incident-edge query (a
query-serving operation) still returns it. -/
theorem c3_counterexample :
    danglingNodes.find? (fun n => n.id == "ghost") = none
    ∧ edgesOfIn danglingEdges "n1" = danglingEdges
    ∧ renderEdgesIn danglingNodes danglingEdges = [] := by
  refine ⟨?_, ?_, ?_⟩ <;> decide

/-- C3 amended: there is no load-time validation; dangling edges are silently
skipped by rendering and still observable by the incident-edge query.  The
shipped catalog itself has no dangling edge endpoint, so nothing is skipped:
every `from`/`to` id resolves and all seven edges render. -/
theorem c3_no_dangling_in_catalog :
    edges.all (fun e =>
      (nodes.find? (fun n => n.id == e.from')).isSome
        && (nodes.find? (fun n => n.id == e.to')).isSome) = true
    ∧ renderEdges.length = edges.length := by
  constructor <;> decide

/-- C4 counterexample: for the input `"data"` no catalog label occurs in the
text (the spec-side extractor returns `[]`), yet the classifier's response
carries the fixed list `["INSAT-3D", "SCATSAT-1", "Oceansat-2"]` — the entity
list does not depend on which labels appear in the input. -/
theorem c4_counterexample :
    specExtract "data" = []
    ∧ entitiesOf (simulateAIResponse "data" 0) = some ["INSAT-3D", "SCATSAT-1", "Oceansat-2"]
    ∧ entitiesOf (simulateAIResponse "data" 0) ≠ some (specExtract "data") := by
  refine ⟨?_, ?_, ?_⟩ <;> decide

/-- C4 amended: whenever the satellite/data rule fires, the response carries
the hard-coded entity list `["INSAT-3D", "SCATSAT-1", "Oceansat-2"]`,
independent of which catalog labels occur in the text; no other branch
attaches entities. -/
theorem c4_entities_fixed (text : String) (now : Nat)
    (h : jsIncludes (jsToLower text) "satellite" = true
       ∨ jsIncludes (jsToLower text) "data" = true) :
    entitiesOf (simulateAIResponse text now)
      = some ["INSAT-3D", "SCATSAT-1", "Oceansat-2"] := by
  rcases h with h | h <;> simp [simulateAIResponse, entitiesOf, h]

/-- Witness for C4 amended at the concrete input `"satellite"`. -/
theorem c4_entities_fixed_witness :
    entitiesOf (simulateAIResponse "satellite" 3)
      = some ["INSAT-3D", "SCATSAT-1", "Oceansat-2"] :=
  c4_entities_fixed "satellite" 3 (Or.inl (by decide))

/-- C5 counterexample: the whitespace-only term `" "` is not special-cased —
it filters by literal substring containment and returns 7 of the 10 catalog
nodes (only the labels containing a space match), not the full catalog. -/
theorem c5_counterexample :
    searchNodes " " ≠ nodes
    ∧ (searchNodes " ").length = 7
    ∧ nodes.length = 10 := by
  refine ⟨?_, ?_, ?_⟩ <;> decide

/-- C5 amended: the empty term returns the full node catalog in catalog
order, both through the filter itself and through the rendered-list branch
`searchTerm ? filteredNodes : nodes`. -/
theorem c5_empty_term_full_catalog :
    searchNodes "" = nodes ∧ displayedNodes "" = nodes := by
  constructor <;> decide

/-- C6 counterexample: the fallback response for `"tell me about the
weather"` carries no `intent` field at all (in particular not
`general_inquiry`) and no `confidence`; it is flagged only by
`generalQuery: true`. -/
theorem c6_counterexample :
    intentOf (simulateAIResponse "tell me about the weather" 0) = none
    ∧ intentOf (simulateAIResponse "tell me about the weather" 0)
        ≠ some "general_inquiry"
    ∧ confidenceOf (simulateAIResponse "tell me about the weather" 0) = none
    ∧ (simulateAIResponse "tell me about the weather" 0).metadata.bind
        ChatMetadata.generalQuery = some true := by
  refine ⟨?_, ?_, ?_, ?_⟩ <;> decide

/-- C6 amended: classify is total — for any input matching no rule keyword it
returns (never errors) the structured fallback response: the generic template
parameterized by the query, with metadata `generalQuery: true` and the fixed
`searchAreas` list, and no intent string or confidence value attached. -/
theorem c6_fallback_structured (text : String) (now : Nat)
    (h1 : jsIncludes (jsToLower text) "satellite" = false)
    (h2 : jsIncludes (jsToLower text) "data" = false)
    (h3 : jsIncludes (jsToLower text) "download" = false)
    (h4 : jsIncludes (jsToLower text) "access" = false)
    (h5 : jsIncludes (jsToLower text) "location" = false)
    (h6 : jsIncludes (jsToLower text) "area" = false)
    (h7 : jsIncludes (jsToLower text) "region" = false) :
    (simulateAIResponse text now).metadata = some
      { entities := none, intent := none, confidence := none,
        procedure := none, steps := none, spatialQuery := none,
        availableSensors := none, generalQuery := some true,
        searchAreas := some ["documentation", "faq", "missions", "support"] }
    ∧ (simulateAIResponse text now).type = none
    ∧ (simulateAIResponse text now).content = fallbackContent text := by
  simp [simulateAIResponse, h1, h2, h3, h4, h5, h6, h7]

/-- Witness for C6 amended at the concrete input
`"tell me about the weather"`. -/
theorem c6_fallback_structured_witness :
    (simulateAIResponse "tell me about the weather" 5).metadata = some
      { entities := none, intent := none, confidence := none,
        procedure := none, steps := none, spatialQuery := none,
        availableSensors := none, generalQuery := some true,
        searchAreas := some ["documentation", "faq", "missions", "support"] }
    ∧ (simulateAIResponse "tell me about the weather" 5).type = none
    ∧ (simulateAIResponse "tell me about the weather" 5).content
        = fallbackContent "tell me about the weather" :=
  c6_fallback_structured "tell me about the weather" 5 (by decide) (by decide)
    (by decide) (by decide) (by decide) (by decide) (by decide)

/-- C7: the classification outcome is deterministic — two calls on the same
query text agree on content (template), type, metadata (intent, confidence,
entities) and sender; only the explicit clock argument (id/timestamp) can
differ between calls. -/
theorem c7_classify_deterministic (q : String) (t1 t2 : Nat) :
    (simulateAIResponse q t1).content = (simulateAIResponse q t2).content
    ∧ (simulateAIResponse q t1).type = (simulateAIResponse q t2).type
    ∧ (simulateAIResponse q t1).metadata = (simulateAIResponse q t2).metadata
    ∧ (simulateAIResponse q t1).sender = (simulateAIResponse q t2).sender := by
  simp only [simulateAIResponse]
  split_ifs <;> exact ⟨rfl, rfl, rfl, rfl⟩

/-- C8: search is case-insensitive — two terms with the same lowercasing give
the same result list — and idempotent: repeating the same term yields an
identical sequence. -/
theorem c8_search_case_insensitive (s t : String)
    (h : jsToLower s = jsToLower t) :
    searchNodes s = searchNodes t ∧ searchNodes s = searchNodes s := by
  refine ⟨?_, rfl⟩
  unfold searchNodes
  rw [h]

/-- Witness for C8 at the concrete terms `"SAT"` and `"sat"`. -/
theorem c8_search_case_insensitive_witness :
    searchNodes "SAT" = searchNodes "sat"
    ∧ searchNodes "SAT" = searchNodes "SAT" :=
  c8_search_case_insensitive "SAT" "sat" (by decide)

/-- C9: for a node id of the catalog, the incident-edge lookup of the detail
panel returns exactly the edges whose `from` or `to` equals the id, in
catalog order (it is a sublist of the edge catalog); for the sample catalog
the detail of `insat3d` includes exactly one incident edge. -/
theorem c9_edges_of_exact (id : String) (hmem : id ∈ nodes.map Node.id) :
    (∀ e, e ∈ edgesOf id ↔ (e ∈ edges ∧ (e.from' = id ∨ e.to' = id)))
    ∧ List.Sublist (edgesOf id) edges
    ∧ (edgesOf "insat3d").length = 1 := by
  refine ⟨fun e => ?_, ?_, by decide⟩
  · unfold edgesOf edgesOfIn
    rw [List.mem_filter]
    simp
  · unfold edgesOf edgesOfIn
    exact List.filter_sublist _

/-- Witness for C9 at the catalog id `"insat3d"` and the concrete edge
`insat3d → imager_data`. -/
theorem c9_edges_of_exact_witness :
    (({ from' := "insat3d", to' := "imager_data", label := "generates",
        type := "provides" } : Edge) ∈ edgesOf "insat3d"
      ↔ (({ from' := "insat3d", to' := "imager_data", label := "generates",
            type := "provides" } : Edge) ∈ edges
          ∧ ("insat3d" = "insat3d" ∨ "imager_data" = "insat3d")))
    ∧ List.Sublist (edgesOf "insat3d") edges
    ∧ (edgesOf "insat3d").length = 1 := by
  obtain ⟨h1, h2, h3⟩ := c9_edges_of_exact "insat3d" (by decide)
  exact ⟨h1 _, h2, h3⟩

/-- C10: rendering a connection id of the selected node is total — when the
id resolves to no catalog node, the panel falls back to the default gray dot
and shows the raw id string instead of failing. -/
theorem c10_connection_fallback (connectionId : String)
    (h : nodes.find? (fun n => n.id == connectionId) = none) :
    renderConnection connectionId = ("bg-gray-500", connectionId) := by
  unfold renderConnection
  rw [h]

/-- Witness for C10 at the dangling connection id `"sounder_data"`, which the
sample data authors inside `insat3d.connections` although no node has it. -/
theorem c10_connection_fallback_witness :
    renderConnection "sounder_data" = ("bg-gray-500", "sounder_data") :=
  c10_connection_fallback "sounder_data" (by decide)

end Mosdac
